import Mathlib

/-!
# Verification of `script.js` (The Madoven Bakery)

A shallow embedding of the event handlers of `src/script.js` and the
properties of the menu controller, the clipboard copy operation, the
back-to-top visibility toggle, the `throttle` utility and the anchor
navigation resolver.

Platform objects are modelled by the data the handlers read and write:
an element's `classList` is an ordered set of tokens, inline styles are
strings, a lookup that can return `null` is an `Option`, and a handler
that can throw yields the state reached together with the error thrown.
-/

namespace Script

/-! ## Platform model -/

/-- Errors a handler of the script can raise. -/
inductive JsError where
  | typeError
  | syntaxError
  | notFoundError
  | commandError
  deriving DecidableEq, Repr

/-- Result of running a listener: the state it left behind and the error it
threw, if any. A throwing listener keeps the mutations made before the throw. -/
structure Run (σ : Type) where
  state : σ
  threw : Option JsError
  deriving Repr

/-- The `classList` of an element: an ordered set of class tokens. -/
structure ClassList where
  tokens : List String
  deriving DecidableEq, Repr

/-- `classList.contains(t)`. -/
def ClassList.contains (cl : ClassList) (t : String) : Bool :=
  decide (t ∈ cl.tokens)

/-- `classList.add(t)`: appended unless already present. -/
def ClassList.add (cl : ClassList) (t : String) : ClassList :=
  if cl.contains t then cl else ⟨cl.tokens ++ [t]⟩

/-- `classList.remove(t)`. -/
def ClassList.remove (cl : ClassList) (t : String) : ClassList :=
  ⟨cl.tokens.filter (fun x => x != t)⟩

/-- `classList.toggle(t)`: removed when present, appended otherwise. -/
def ClassList.toggle (cl : ClassList) (t : String) : ClassList :=
  if cl.contains t then cl.remove t else ⟨cl.tokens ++ [t]⟩

/-! ## Anchor navigation (`initSmoothScrolling`, `scrollToSection`) -/

/-- An element of the page that has an `id`, with its `offsetTop`. -/
structure PageElement where
  id : String
  offsetTop : Int
  deriving DecidableEq, Repr

/-- The part of the page anchor navigation reads: the elements that have an
id, in tree order, the `offsetHeight` of `.header` (`none` when there is no
such element), and the answer of `document.querySelector` to the selectors
that are not a single id selector. -/
structure Page where
  elements : List PageElement
  header : Option Int
  otherSelector : String → Except JsError (Option PageElement)

/-- The argument of a `window.scrollTo` call. -/
structure ScrollToCall where
  top : Int
  behavior : String
  deriving DecidableEq, Repr

/-- What an activation did: whether `preventDefault` was called, the calls of
`window.scrollTo`, and the error thrown. -/
structure NavOutcome where
  defaultPrevented : Bool
  scrollCalls : List ScrollToCall
  threw : Option JsError
  deriving DecidableEq, Repr

/-- A character that can start a CSS identifier (escapes apart). -/
def isIdentStart (c : Char) : Bool :=
  c.isAlpha || c == '_' || decide (128 ≤ c.toNat)

/-- A character that can continue a CSS identifier (escapes apart). -/
def isIdentChar (c : Char) : Bool :=
  isIdentStart c || c.isDigit || c == '-'

/-- The characters form a CSS identifier written without escapes. -/
def simpleIdent : List Char → Bool
  | [] => false
  | c :: cs =>
    (isIdentStart c ||
      (c == '-' && match cs with
        | d :: _ => isIdentStart d || d == '-'
        | [] => false)) && cs.all isIdentChar

/-- `document.getElementById(id)`: the first element with that id, `null`
when there is none. -/
def getElementById (p : Page) (id : String) : Option PageElement :=
  if id = "" then none else p.elements.find? (fun s => s.id == id)

/-- `document.querySelector(sel)`. The selector `#` alone is not a valid
selector and throws a `SyntaxError`; `#` followed by an identifier selects the
first element with that id; every other selector is answered by the page. -/
def querySelector (p : Page) (sel : String) : Except JsError (Option PageElement) :=
  match sel.data with
  | ['#'] => .error .syntaxError
  | '#' :: r =>
    if simpleIdent r then .ok (getElementById p (String.mk r)) else p.otherSelector sel
  | _ => p.otherSelector sel

/-- The statements both navigation paths run once the target is found
(script.js 81-88 and 98-104). -/
def scrollToTarget (p : Page) (target : PageElement) (prevented : Bool) : NavOutcome :=
  match p.header with
  | none => ⟨prevented, [], some .typeError⟩
  | some headerHeight =>
    ⟨prevented, [⟨target.offsetTop - headerHeight - 20, "smooth"⟩], none⟩

/-- Click listener of an anchor whose `href` is `href` (script.js 73-90). -/
def smoothScrollClick (p : Page) (href : String) : NavOutcome :=
  match querySelector p href with
  | .error e => ⟨true, [], some e⟩
  | .ok none => ⟨true, [], none⟩
  | .ok (some targetSection) => scrollToTarget p targetSection true

/-- `scrollToSection(sectionId)` (script.js 95-106). -/
def scrollToSection (p : Page) (sectionId : String) : NavOutcome :=
  match getElementById p sectionId with
  | none => ⟨false, [], none⟩
  | some targetSection => scrollToTarget p targetSection false

/-- The fragment identifier of an `href` that begins with `#`. -/
def fragmentOf (href : String) : String :=
  String.mk (href.data.drop 1)

/-- The fragment names no element of the page. -/
def namesNoElement (p : Page) (fragment : String) : Prop :=
  ∀ s ∈ p.elements, s.id ≠ fragment

/-! ## Mobile menu (`initMobileMenu`, the `keydown` listener) -/

/-- The part of the page the menu handlers touch. `mobileMenuBtn` and
`navMenu` are the results of `querySelector('.mobile-menu-btn')` and
`querySelector('.nav-menu')` (`none` for `null`), each given by the class
list of the element; `bodyOverflow` is `document.body.style.overflow`. -/
structure MenuDom where
  mobileMenuBtn : Option ClassList
  navMenu : Option ClassList
  bodyOverflow : String
  deriving DecidableEq, Repr

/-- Listener of `mobileMenuBtn` for `click` (script.js 32-42). -/
def menuBtnClick (d : MenuDom) : Run MenuDom :=
  match d.mobileMenuBtn with
  | none => ⟨d, some .typeError⟩
  | some b =>
    let d1 := { d with mobileMenuBtn := some (b.toggle "active") }
    match d1.navMenu with
    | none => ⟨d1, some .typeError⟩
    | some n =>
      let d2 := { d1 with navMenu := some (n.toggle "active") }
      if (n.toggle "active").contains "active" then
        ⟨{ d2 with bodyOverflow := "hidden" }, none⟩
      else
        ⟨{ d2 with bodyOverflow := "" }, none⟩

/-- The three statements shared by the closing listeners:
`mobileMenuBtn.classList.remove('active'); navMenu.classList.remove('active');
document.body.style.overflow = ''`. -/
def closeStatements (d : MenuDom) : Run MenuDom :=
  match d.mobileMenuBtn with
  | none => ⟨d, some .typeError⟩
  | some b =>
    let d1 := { d with mobileMenuBtn := some (b.remove "active") }
    match d1.navMenu with
    | none => ⟨d1, some .typeError⟩
    | some n =>
      ⟨{ d1 with navMenu := some (n.remove "active"), bodyOverflow := "" }, none⟩

/-- Listener of every `.nav-link` for `click` (script.js 46-50). -/
def navLinkClick (d : MenuDom) : Run MenuDom :=
  closeStatements d

/-- Listener of `document` for `click` (script.js 54-60). `inButton` and
`inPanel` are `mobileMenuBtn.contains(e.target)` and
`navMenu.contains(e.target)`; `&&` short-circuits. -/
def documentClick (inButton inPanel : Bool) (d : MenuDom) : Run MenuDom :=
  match d.mobileMenuBtn with
  | none => ⟨d, some .typeError⟩
  | some _ =>
    if !inButton then
      match d.navMenu with
      | none => ⟨d, some .typeError⟩
      | some _ => if !inPanel then closeStatements d else ⟨d, none⟩
    else ⟨d, none⟩

/-- Listener of `document` for `keydown` (script.js 245-257). -/
def documentKeydown (key : String) (d : MenuDom) : Run MenuDom :=
  if key = "Escape" then
    match d.navMenu with
    | none => ⟨d, some .typeError⟩
    | some n => if n.contains "active" then closeStatements d else ⟨d, none⟩
  else ⟨d, none⟩

/-- The click listener `initSmoothScrolling` binds to an `a[href^="#"]`
(script.js 73-90), as the menu sees it: it touches no class list and no body
style, and throws what `smoothScrollClick` throws. -/
def anchorClick (page : Page) (href : String) (d : MenuDom) : Run MenuDom :=
  ⟨d, (smoothScrollClick page href).threw⟩

/-- The click listener of `#back-to-top` (script.js 126-131), as the menu sees
it: `window.scrollTo({ top: 0, behavior: 'smooth' })`. -/
def backToTopClick (d : MenuDom) : Run MenuDom :=
  ⟨d, none⟩

/-- An element with a click listener of the script that a click passes while
it bubbles: a `.nav-link`, the menu button, an `a[href^="#"]` with its `href`,
the back-to-top control. -/
inductive Hit where
  | navLink
  | menuButton
  | anchor (href : String)
  | backToTop
  deriving DecidableEq, Repr

/-- Where a click lands: `path` lists the listeners it reaches below the
document, from the target outwards (listeners of one element in the order
the script registered them, so a nav link that is an `a[href^="#"]` gives
`navLink` then `anchor`); `inPanel` is `navMenu.contains(e.target)`. The
target is inside the menu button exactly when the button is on the path. -/
structure ClickTarget where
  path : List Hit
  inPanel : Bool
  deriving DecidableEq, Repr

/-- Events the menu reacts to. -/
inductive MenuEvent where
  | click (t : ClickTarget)
  | keydown (key : String)
  deriving DecidableEq, Repr

/-- Runs listeners one after the other; a throwing listener does not stop
the following ones, the errors are collected. -/
def runListeners (ls : List (MenuDom → Run MenuDom)) (d : MenuDom) :
    MenuDom × List JsError :=
  ls.foldl (fun acc l =>
    let r := l acc.1
    (r.state, acc.2 ++ r.threw.toList)) (d, [])

/-- The listener the script bound to an element of the path. -/
def hitListener (page : Page) : Hit → MenuDom → Run MenuDom
  | .navLink => navLinkClick
  | .menuButton => menuBtnClick
  | .anchor href => anchorClick page href
  | .backToTop => backToTopClick

/-- Every click listener of the script a click reaches while it bubbles from
its target to the document. -/
def clickPath (page : Page) (t : ClickTarget) : List (MenuDom → Run MenuDom) :=
  t.path.map (hitListener page) ++
    [documentClick (decide (Hit.menuButton ∈ t.path)) t.inPanel]

/-- Dispatch of one event to the listeners registered by the script. -/
def dispatch (page : Page) (e : MenuEvent) (d : MenuDom) : MenuDom × List JsError :=
  match e with
  | .click t => runListeners (clickPath page t) d
  | .keydown key => runListeners [documentKeydown key] d

/-- The states after each event of a sequence, in order. -/
def menuTrace (page : Page) : List MenuEvent → MenuDom → List (MenuDom × List JsError)
  | [], _ => []
  | e :: es, d => dispatch page e d :: menuTrace page es (dispatch page e d).1

/-- Button carries the `active` class. -/
def buttonActive (d : MenuDom) : Bool :=
  match d.mobileMenuBtn with
  | some b => b.contains "active"
  | none => false

/-- Panel carries the `active` class. -/
def panelActive (d : MenuDom) : Bool :=
  match d.navMenu with
  | some n => n.contains "active"
  | none => false

/-- Page scrolling is locked. -/
def scrollLocked (d : MenuDom) : Bool :=
  decide (d.bodyOverflow = "hidden")

/-- All three flags true, or all three false. -/
@[reducible] def consistent (d : MenuDom) : Prop :=
  buttonActive d = panelActive d ∧ panelActive d = scrollLocked d

/-- The state `Open`. -/
@[reducible] def isOpen (d : MenuDom) : Prop :=
  buttonActive d = true ∧ panelActive d = true ∧ scrollLocked d = true

/-- The state `Closed`. -/
@[reducible] def isClosed (d : MenuDom) : Prop :=
  buttonActive d = false ∧ panelActive d = false ∧ scrollLocked d = false

/-- Both menu elements exist, and the three flags agree. -/
def MenuInv (d : MenuDom) : Prop :=
  ∃ b n, d.mobileMenuBtn = some b ∧ d.navMenu = some n ∧
    b.contains "active" = n.contains "active" ∧
    n.contains "active" = decide (d.bodyOverflow = "hidden")

/-- The listeners the script registers for the menu. -/
def IsMenuListener (l : MenuDom → Run MenuDom) : Prop :=
  l = menuBtnClick ∨ l = navLinkClick ∨ (∃ i p, l = documentClick i p) ∨
    ∃ k, l = documentKeydown k

/-- The listeners of the script that leave the menu as it is. -/
def IsPassiveListener (l : MenuDom → Run MenuDom) : Prop :=
  ∀ d, (l d).state = d

/-- The path of a click on an element that is an `a[href^="#"]` with the given
`href`, or is no such anchor. -/
def anchorPath : Option String → List Hit
  | some href => [.anchor href]
  | none => []

/-- What the smooth-scroll listener of such an element throws. -/
def anchorErrors (page : Page) : Option String → List JsError
  | some href => (smoothScrollClick page href).threw.toList
  | none => []

/-- Click on the menu button (not on a nav link). -/
def menuButtonClicked (inPanel : Bool) : MenuEvent :=
  .click ⟨[.menuButton], inPanel⟩

/-- Click on a nav link (outside the menu button); `anchor` is its `href`
when the link is an `a[href^="#"]`. -/
def navLinkClicked (anchor : Option String) (inPanel : Bool) : MenuEvent :=
  .click ⟨.navLink :: anchorPath anchor, inPanel⟩

/-- Click outside both the button and the panel, on no nav link; `anchor` is
the `href` of the `a[href^="#"]` the target is in, if any. -/
def outsideClicked (anchor : Option String) : MenuEvent :=
  .click ⟨anchorPath anchor, false⟩

/-- Escape key pressed. -/
def escapePressed : MenuEvent :=
  .keydown "Escape"

/-- A page with one section, `about`, and a header 80 px high. -/
def anchorPage : Page :=
  { elements := [⟨"about", 600⟩], header := some 80, otherSelector := fun _ => .ok none }

/-- A closed menu. -/
def closedMenu : MenuDom :=
  ⟨some ⟨["mobile-menu-btn"]⟩, some ⟨["nav-menu"]⟩, ""⟩

/-! ## Email copy (`initEmailCopy`, `fallbackCopyEmail`, feedback) -/

/-- The copy button: its label (`textContent`) and its inline background
(`style.background`). -/
structure Button where
  textContent : String
  background : String
  deriving DecidableEq, Repr

/-- A child of `document.body`. `id` stands for the identity of the node. -/
structure Node where
  id : Nat
  tag : String
  value : String
  style : List (String × String)
  deriving DecidableEq, Repr

/-- A timer set by a feedback function: its delay, its due time and the
`originalText` its closure captured. -/
structure RevertTimer where
  id : Nat
  delay : Nat
  due : Nat
  originalText : String
  deriving DecidableEq, Repr

/-- Calls observed while a copy attempt runs (instrumentation). -/
inductive Call where
  | writeText (text : String)
  | fallbackCopyEmail (text : String)
  | execCommand
  | showCopySuccess
  | showCopyError
  | consoleError (msg : String)
  deriving DecidableEq, Repr

/-- The part of the page and of the platform the copy operation touches.
`emailText` is the `textContent` of `#email-text` (`none` when the element is
missing), `copyBtn` the element `.copy-btn` (`none` for `null`). -/
structure CopyWorld where
  emailText : Option String
  copyBtn : Option Button
  body : List Node
  timers : List RevertTimer
  nextTimer : Nat
  now : Nat
  clipboard : Option String
  calls : List Call
  deriving DecidableEq, Repr

/-- What `document.execCommand('copy')` does: it returns `true` (copied),
returns `false` (not copied), or throws. -/
inductive ExecOutcome where
  | returns (copied : Bool)
  | throws
  deriving DecidableEq, Repr

/-- How the promise of `navigator.clipboard.writeText` settles. -/
inductive WriteOutcome where
  | fulfils
  | rejects
  deriving DecidableEq, Repr

/-- The two conditions `copyEmail` tests: `navigator.clipboard` is truthy,
`window.isSecureContext`. -/
structure Env where
  clipboardApi : Bool
  isSecureContext : Bool
  deriving DecidableEq, Repr

/-- `showCopySuccess` (script.js 185-194). `button` is the copy button of the
world; reading `button.textContent` on `null` throws. -/
def showCopySuccess (w : CopyWorld) : Run CopyWorld :=
  let w : CopyWorld := { w with calls := w.calls ++ [Call.showCopySuccess] }
  match w.copyBtn with
  | none => ⟨w, some .typeError⟩
  | some b =>
    ⟨{ w with
        copyBtn := some { textContent := "Copied!", background := "#90EE90" }
        timers := w.timers ++ [⟨w.nextTimer, 2000, w.now + 2000, b.textContent⟩]
        nextTimer := w.nextTimer + 1 }, none⟩

/-- `showCopyError` (script.js 197-206). -/
def showCopyError (w : CopyWorld) : Run CopyWorld :=
  let w : CopyWorld := { w with calls := w.calls ++ [Call.showCopyError] }
  match w.copyBtn with
  | none => ⟨w, some .typeError⟩
  | some b =>
    ⟨{ w with
        copyBtn := some { textContent := "Copy Failed", background := "#FFB6C1" }
        timers := w.timers ++ [⟨w.nextTimer, 2000, w.now + 2000, b.textContent⟩]
        nextTimer := w.nextTimer + 1 }, none⟩

/-- The callback both feedback functions pass to `setTimeout`:
`button.textContent = originalText; button.style.background = ''`. -/
def fireRevert (t : RevertTimer) (w : CopyWorld) : CopyWorld :=
  { w with
    copyBtn := w.copyBtn.map (fun _ => { textContent := t.originalText, background := "" })
    timers := w.timers.filter (fun u => u.id != t.id)
    now := max w.now t.due }

/-- Identity of a node created by `document.createElement`: different from
that of every node of the body. -/
def freshNodeId (body : List Node) : Nat :=
  (body.map (fun n => n.id)).foldr max 0 + 1

/-- `document.body.removeChild(node)`: throws when the node is not a child. -/
def removeChild (node : Node) (w : CopyWorld) : Run CopyWorld :=
  if w.body.any (fun n => n.id == node.id) then
    ⟨{ w with body := w.body.filter (fun n => n.id != node.id) }, none⟩
  else ⟨w, some .notFoundError⟩

/-- The `try` block of `fallbackCopyEmail`:
`document.execCommand('copy'); showCopySuccess(copyBtn);`. The value
`execCommand` returns is not read. -/
def fallbackTry (selected : String) (exec : ExecOutcome) (w : CopyWorld) : Run CopyWorld :=
  let w : CopyWorld := { w with calls := w.calls ++ [Call.execCommand] }
  match exec with
  | .throws => ⟨w, some .commandError⟩
  | .returns copied =>
    showCopySuccess { w with clipboard := if copied then some selected else w.clipboard }

/-- The `catch` block of `fallbackCopyEmail`:
`console.error('Fallback copy failed: ', err); showCopyError(copyBtn);`. -/
def fallbackCatch (w : CopyWorld) : Run CopyWorld :=
  showCopyError { w with calls := w.calls ++ [.consoleError "Fallback copy failed: "] }

/-- `fallbackCopyEmail` (script.js 163-182). An error thrown by the `catch`
block leaves the function before `removeChild`. -/
def fallbackCopyEmail (emailText : String) (exec : ExecOutcome) (w : CopyWorld) :
    Run CopyWorld :=
  let w : CopyWorld := { w with calls := w.calls ++ [Call.fallbackCopyEmail emailText] }
  let textArea : Node :=
    { id := freshNodeId w.body, tag := "textarea", value := emailText,
      style := [("position", "fixed"), ("left", "-999999px"), ("top", "-999999px")] }
  let w : CopyWorld := { w with body := w.body ++ [textArea] }
  let r := fallbackTry textArea.value exec w
  match r.threw with
  | none => removeChild textArea r.state
  | some _ =>
    let c := fallbackCatch r.state
    match c.threw with
    | none => removeChild textArea c.state
    | some e => ⟨c.state, some e⟩

/-- Result of the synchronous part of `copyEmail`: the world, the error thrown
to the caller, and the text of the pending `writeText` promise, if one was
created. -/
structure CopyCall where
  world : CopyWorld
  threw : Option JsError
  pendingWrite : Option String
  deriving Repr

/-- `window.copyEmail` (script.js 142-159), up to its return. -/
def copyEmail (env : Env) (exec : ExecOutcome) (w : CopyWorld) : CopyCall :=
  match w.emailText with
  | none => ⟨w, some .typeError, none⟩
  | some emailText =>
    if env.clipboardApi && env.isSecureContext then
      ⟨{ w with calls := w.calls ++ [.writeText emailText] }, none, some emailText⟩
    else
      let r := fallbackCopyEmail emailText exec w
      ⟨r.state, r.threw, none⟩

/-- The rejection handler of `copyEmail` (script.js 151-154). -/
def onWriteRejected (emailText : String) (exec : ExecOutcome) (w : CopyWorld) :
    Run CopyWorld :=
  fallbackCopyEmail emailText exec
    { w with calls := w.calls ++ [.consoleError "Failed to copy email: "] }

/-- Settlement of the promise chain `writeText(..).then(..).catch(..)`. The
`catch` handler also receives an error thrown by the `then` handler. An error
of the `catch` handler rejects the last promise and reaches no caller. -/
def settleWrite (write : WriteOutcome) (emailText : String) (exec : ExecOutcome)
    (w : CopyWorld) : Run CopyWorld :=
  match write with
  | .fulfils =>
    let r := showCopySuccess { w with clipboard := some emailText }
    match r.threw with
    | none => r
    | some _ => onWriteRejected emailText exec r.state
  | .rejects => onWriteRejected emailText exec w

/-- One whole copy attempt: the call of `copyEmail` and, when it left a
promise pending, its settlement. -/
structure Attempt where
  world : CopyWorld
  thrownToCaller : Option JsError
  unhandledRejection : Option JsError
  ranAsync : Bool
  deriving Repr

/-- Runs a copy attempt to completion. -/
def copyAttempt (env : Env) (write : WriteOutcome) (exec : ExecOutcome) (w : CopyWorld) :
    Attempt :=
  let c := copyEmail env exec w
  match c.pendingWrite with
  | none => ⟨c.world, c.threw, none, false⟩
  | some text =>
    let r := settleWrite write text exec c.world
    ⟨r.state, c.threw, r.threw, true⟩

/-- Number of feedback calls in a call log. -/
def feedbackCalls (cs : List Call) : List Call :=
  cs.filter (fun c => c == .showCopySuccess || c == .showCopyError)

/-- Number of runs of the fallback path in a call log. -/
def fallbackRuns (cs : List Call) : Nat :=
  (cs.filter (fun c => match c with | .fallbackCopyEmail _ => true | _ => false)).length

/-- The success feedback is on the button. -/
def successShown (w : CopyWorld) : Prop :=
  w.copyBtn = some { textContent := "Copied!", background := "#90EE90" }

/-- The failure feedback is on the button. -/
def failureShown (w : CopyWorld) : Prop :=
  w.copyBtn = some { textContent := "Copy Failed", background := "#FFB6C1" }

/-- A step of a session of fallback attempts: an attempt with a text and an
outcome of the legacy command, or the firing of the oldest pending timer. -/
inductive FallbackStep where
  | attempt (text : String) (exec : ExecOutcome)
  | timerFires
  deriving DecidableEq, Repr

/-- Runs one step of a session. -/
def fallbackStep (s : FallbackStep) (w : CopyWorld) : CopyWorld :=
  match s with
  | .attempt text exec => (fallbackCopyEmail text exec w).state
  | .timerFires =>
    match w.timers with
    | [] => w
    | t :: _ => fireRevert t w

/-- Runs a session of fallback attempts and timer firings. -/
def fallbackSession (steps : List FallbackStep) (w : CopyWorld) : CopyWorld :=
  steps.foldl (fun acc s => fallbackStep s acc) w

/-- The calls logged between two worlds of one run. -/
def callsSince (before after : CopyWorld) : List Call :=
  after.calls.drop before.calls.length

/-- The feedback call the fallback path ends with, as a function of what the
legacy copy command did. -/
def fallbackFeedback : ExecOutcome → Call
  | .throws => .showCopyError
  | .returns _ => .showCopySuccess

/-- The legacy copy command copied the text. -/
def execSucceeded : ExecOutcome → Bool
  | .returns copied => copied
  | .throws => false

/-- The textareas among the children of the body. -/
def textAreas (w : CopyWorld) : List Node :=
  w.body.filter (fun n => n.tag == "textarea")

/-- The page of the specification's example scenario: the email text is
`hello@example.com`, the button reads `Copy Email` with no inline background,
the body has two children. -/
def examplePage : CopyWorld :=
  { emailText := some "hello@example.com"
    copyBtn := some { textContent := "Copy Email", background := "" }
    body := [⟨1, "header", "", []⟩, ⟨2, "main", "", []⟩]
    timers := []
    nextTimer := 1
    now := 0
    clipboard := none
    calls := [] }

/-- The example page with an inline background on the copy button. -/
def styledButtonPage : CopyWorld :=
  { examplePage with copyBtn := some { textContent := "Copy Email", background := "red" } }

/-! ## Timers and `throttle` -/

/-- Values a function of the script hands back to its caller. -/
inductive JsValue where
  | undefined
  | boolean (b : Bool)
  | number (n : Int)
  | string (s : String)
  deriving DecidableEq, Repr

/-- A timer created by the wrapper `executedFunction`: the closure `later`
with the arguments it captured, and the time it is due. -/
structure PendingTimer (α : Type) where
  id : Nat
  due : Nat
  args : α
  deriving DecidableEq, Repr

/-- State of one wrapper returned by `throttle(func, wait)` in a page with an
explicit clock: `timeout` is the closure variable (`none` is `undefined`),
`pending` the wrapper's timers that are neither fired nor cleared, in
creation order, `executed` the time and arguments of each call of `func`, and
`user` the state `func` acts on. -/
structure ThrottleSys (α σ : Type) where
  now : Nat
  nextId : Nat
  timeout : Option Nat
  pending : List (PendingTimer α)
  executed : List (Nat × α)
  user : σ
  deriving Repr

/-- State right after `throttle(func, wait)` returned. -/
def ThrottleSys.init {α σ : Type} (user : σ) : ThrottleSys α σ :=
  { now := 0, nextId := 1, timeout := none, pending := [], executed := [], user := user }

/-- `clearTimeout(timeout)`: no effect for `undefined` or an id that is not
pending. -/
def clearTimeout {α σ : Type} (s : ThrottleSys α σ) : ThrottleSys α σ :=
  { s with pending := s.pending.filter (fun t => some t.id != s.timeout) }

/-- The wrapper `executedFunction(...args)` (script.js 217-224):
`clearTimeout(timeout); timeout = setTimeout(later, wait);`. It has no
`return` statement. -/
def executedFunction {α σ : Type} (wait : Nat) (args : α) (s : ThrottleSys α σ) :
    ThrottleSys α σ × JsValue :=
  let s1 := clearTimeout s
  ({ s1 with
      pending := s1.pending ++ [⟨s1.nextId, s1.now + wait, args⟩]
      timeout := some s1.nextId
      nextId := s1.nextId + 1 }, JsValue.undefined)

/-- The closure `later` (script.js 218-221):
`clearTimeout(timeout); func(...args);`. `func` is given the current time. -/
def later {α σ : Type} (func : Nat → α → σ → σ) (args : α) (s : ThrottleSys α σ) :
    ThrottleSys α σ :=
  let s1 := clearTimeout s
  { s1 with user := func s1.now args s1.user, executed := s1.executed ++ [(s1.now, args)] }

/-- The pending timer that fires next: the least due time, the older one on
a tie. -/
def earliest {α : Type} : List (PendingTimer α) → Option (PendingTimer α)
  | [] => none
  | t :: ts =>
    match earliest ts with
    | none => some t
    | some u => if t.due ≤ u.due then some t else some u

/-- Fires, in order, the timers due at or before `T`; `fuel` bounds the number
of firings. -/
def fireDue {α σ : Type} (func : Nat → α → σ → σ) (T : Nat) :
    Nat → ThrottleSys α σ → ThrottleSys α σ
  | 0, s => s
  | fuel + 1, s =>
    match earliest s.pending with
    | none => s
    | some t =>
      if t.due ≤ T then
        fireDue func T fuel
          (later func t.args
            { s with now := max s.now t.due
                     pending := s.pending.filter (fun u => u.id != t.id) })
      else s

/-- Lets time pass until `T`: every timer due by then fires (a firing creates
no timer, so one round per pending timer is enough), then the clock reads `T`. -/
def advance {α σ : Type} (func : Nat → α → σ → σ) (T : Nat) (s : ThrottleSys α σ) :
    ThrottleSys α σ :=
  let s1 := fireDue func T s.pending.length s
  { s1 with now := max s1.now T }

/-- A call of the wrapper at time `c.1` with arguments `c.2`. -/
def callAt {α σ : Type} (func : Nat → α → σ → σ) (wait : Nat) (c : Nat × α)
    (s : ThrottleSys α σ) : ThrottleSys α σ :=
  (executedFunction wait c.2 (advance func c.1 s)).1

/-- A sequence of calls of the wrapper, each at its time. -/
def runCalls {α σ : Type} (func : Nat → α → σ → σ) (wait : Nat) (cs : List (Nat × α))
    (s : ThrottleSys α σ) : ThrottleSys α σ :=
  cs.foldl (fun acc c => callAt func wait c acc) s

/-- A burst: times do not decrease and each call comes less than `wait` ms
after the previous one. -/
def isBurst {α : Type} (wait : Nat) (cs : List (Nat × α)) : Prop :=
  cs.Chain' (fun a b => a.1 ≤ b.1 ∧ b.1 < a.1 + wait)

/-- The wrapper was last called at time `t` with `args`, its timer is the only
one pending and `func` has not run yet. -/
def Armed {α σ : Type} (wait : Nat) (user : σ) (t : Nat) (args : α)
    (s : ThrottleSys α σ) : Prop :=
  s.now = t ∧ s.executed = [] ∧ s.user = user ∧
    ∃ id, s.pending = [⟨id, t + wait, args⟩] ∧ s.timeout = some id

/-- At most one timer is pending, and it is the one `timeout` names. -/
def OneTimer {α σ : Type} (s : ThrottleSys α σ) : Prop :=
  s.pending = [] ∨ ∃ x, s.pending = [x] ∧ s.timeout = some x.id

/-! ## Back-to-top visibility (`initBackToTop`, the throttled listener) -/

/-- The part of the page the scroll listeners touch: `window.pageYOffset`,
the class list of `#back-to-top` (`none` when the element is missing) and the
log of writes of the `visible` class (time, value written). -/
structure ScrollDom where
  pageYOffset : ℚ
  backToTop : Option ClassList
  writes : List (Nat × Bool)
  deriving DecidableEq, Repr

/-- Scroll listener registered by `initBackToTop` (script.js 117-123). -/
def backToTopScrollListener (now : Nat) (d : ScrollDom) : Run ScrollDom :=
  if d.pageYOffset > 300 then
    match d.backToTop with
    | none => ⟨d, some .typeError⟩
    | some cl =>
      ⟨{ d with backToTop := some (cl.add "visible"), writes := d.writes ++ [(now, true)] },
        none⟩
  else
    match d.backToTop with
    | none => ⟨d, some .typeError⟩
    | some cl =>
      ⟨{ d with backToTop := some (cl.remove "visible"), writes := d.writes ++ [(now, false)] },
        none⟩

/-- The callback handed to `throttle` at script.js 228-236. -/
def throttledScrollCallback (now : Nat) (d : ScrollDom) : Run ScrollDom :=
  match d.backToTop with
  | none => ⟨d, some .typeError⟩
  | some cl =>
    if d.pageYOffset > 300 then
      ⟨{ d with backToTop := some (cl.add "visible"), writes := d.writes ++ [(now, true)] },
        none⟩
    else
      ⟨{ d with backToTop := some (cl.remove "visible"), writes := d.writes ++ [(now, false)] },
        none⟩

/-- The control carries the `visible` class. -/
def isVisible (d : ScrollDom) : Bool :=
  match d.backToTop with
  | some cl => cl.contains "visible"
  | none => false

/-- The throttle interval of the scroll listener (script.js 236). -/
def scrollWait : Nat := 100

/-- The callback as `throttle` sees it: the scroll event it is given is not
read. -/
def throttledFunc (now : Nat) (_ : Unit) (d : ScrollDom) : ScrollDom :=
  (throttledScrollCallback now d).state

/-- The page once every scroll listener is registered: the wrapper of
script.js 228 (registered while the script is evaluated) and the listener of
`initBackToTop` (registered at `DOMContentLoaded`), in that order. -/
abbrev ScrollSys := ThrottleSys Unit ScrollDom

/-- A scroll event at time `e.1` that finds the page at offset `e.2`: time
passes until then, and the two listeners run in registration order. -/
def scrollEvent (e : Nat × ℚ) (s : ScrollSys) : ScrollSys :=
  let s1 := advance throttledFunc e.1 s
  let s2 : ScrollSys := { s1 with user := { s1.user with pageYOffset := e.2 } }
  let s3 := (executedFunction scrollWait () s2).1
  { s3 with user := (backToTopScrollListener s3.now s3.user).state }

/-- A sequence of scroll events. -/
def scrollEvents (es : List (Nat × ℚ)) (s : ScrollSys) : ScrollSys :=
  es.foldl (fun acc e => scrollEvent e acc) s

/-- A page at the top, its back-to-top control hidden, right after the script
registered its scroll listeners. -/
def scrollPage : ScrollSys :=
  ThrottleSys.init ⟨0, some ⟨["back-to-top"]⟩, []⟩

/-! ## Class list facts -/

theorem ClassList.contains_add (cl : ClassList) (t u : String) :
    (cl.add t).contains u = (cl.contains u || decide (u = t)) := by
  unfold ClassList.add ClassList.contains
  by_cases h : t ∈ cl.tokens
  · by_cases hu : u = t
    · subst hu; simp [h]
    · simp [h, hu]
  · simp [h]

theorem ClassList.contains_remove (cl : ClassList) (t u : String) :
    (cl.remove t).contains u = (cl.contains u && !decide (u = t)) := by
  unfold ClassList.remove ClassList.contains
  by_cases hu : u = t
  · subst hu; simp
  · by_cases h : u ∈ cl.tokens <;> simp [h, hu]

theorem ClassList.contains_toggle (cl : ClassList) (t : String) :
    (cl.toggle t).contains t = !cl.contains t := by
  unfold ClassList.toggle
  by_cases h : cl.contains t = true
  · rw [if_pos h, ClassList.contains_remove]; simp [h]
  · rw [if_neg h]
    simp only [Bool.not_eq_true] at h
    rw [h]
    simp only [ClassList.contains, decide_eq_false_iff_not] at h
    simp [ClassList.contains]

theorem ClassList.remove_absent (cl : ClassList) (t : String)
    (h : cl.contains t = false) : cl.remove t = cl := by
  unfold ClassList.contains at h
  unfold ClassList.remove
  cases cl with
  | mk ts =>
    simp only [decide_eq_false_iff_not] at h
    simp only [ClassList.mk.injEq, List.filter_eq_self]
    intro a ha
    simp only [bne_iff_ne, ne_eq]
    rintro rfl
    exact h ha

/-! ## Mobile menu -/

theorem menuBtnClick_present (b n : ClassList) (o : String) :
    menuBtnClick ⟨some b, some n, o⟩ =
      ⟨⟨some (b.toggle "active"), some (n.toggle "active"),
        if (n.toggle "active").contains "active" then "hidden" else ""⟩, none⟩ := by
  simp only [menuBtnClick]
  split <;> rfl

theorem closeStatements_present (b n : ClassList) (o : String) :
    closeStatements ⟨some b, some n, o⟩ =
      ⟨⟨some (b.remove "active"), some (n.remove "active"), ""⟩, none⟩ := rfl

theorem MenuInv.consistent {d : MenuDom} (h : MenuInv d) : consistent d := by
  obtain ⟨b, n, hb, hn, h1, h2⟩ := h
  simp only [Script.consistent, buttonActive, panelActive, scrollLocked, hb, hn]
  exact ⟨h1, h2⟩

theorem MenuInv.of_closed (b n : ClassList) (o : String)
    (h : isClosed ⟨some b, some n, o⟩) : MenuInv ⟨some b, some n, o⟩ := by
  obtain ⟨h1, h2, h3⟩ := h
  simp only [buttonActive, panelActive, scrollLocked] at h1 h2 h3
  exact ⟨b, n, rfl, rfl, by rw [h1, h2], by rw [h2, h3]⟩

theorem closeStatements_inv (d : MenuDom) (h : MenuInv d) :
    MenuInv (closeStatements d).state ∧ (closeStatements d).threw = none := by
  obtain ⟨b, n, hb, hn, -, -⟩ := h
  obtain ⟨db, dn, o⟩ := d
  simp only at hb hn
  subst hb hn
  rw [closeStatements_present]
  refine ⟨⟨_, _, rfl, rfl, ?_, ?_⟩, rfl⟩
  · simp [ClassList.contains_remove]
  · simp [ClassList.contains_remove]

theorem menuBtnClick_inv (d : MenuDom) (h : MenuInv d) :
    MenuInv (menuBtnClick d).state ∧ (menuBtnClick d).threw = none := by
  obtain ⟨b, n, hb, hn, h1, -⟩ := h
  obtain ⟨db, dn, o⟩ := d
  simp only at hb hn
  subst hb hn
  rw [menuBtnClick_present]
  refine ⟨⟨_, _, rfl, rfl, ?_, ?_⟩, rfl⟩
  · rw [ClassList.contains_toggle, ClassList.contains_toggle, h1]
  · by_cases h : (n.toggle "active").contains "active" = true
    · simp [h]
    · simp [h]

theorem listener_inv (l : MenuDom → Run MenuDom) (hl : IsMenuListener l) (d : MenuDom)
    (h : MenuInv d) : MenuInv (l d).state ∧ (l d).threw = none := by
  rcases hl with rfl | rfl | ⟨i, p, rfl⟩ | ⟨k, rfl⟩
  · exact menuBtnClick_inv d h
  · exact closeStatements_inv d h
  · obtain ⟨b, n, hb, hn, -, -⟩ := id h
    simp only [documentClick, hb, hn]
    cases i <;> cases p <;> simp [closeStatements_inv d h, h]
  · obtain ⟨b, n, hb, hn, -, -⟩ := id h
    simp only [documentKeydown, hn]
    by_cases hk : k = "Escape"
    · by_cases ha : n.contains "active" = true
      · simp [hk, ha, closeStatements_inv d h]
      · simp [hk, ha, h]
    · simp [hk, h]

theorem listener_keeps (l : MenuDom → Run MenuDom)
    (hl : IsMenuListener l ∨ IsPassiveListener l) (d : MenuDom) (h : MenuInv d) :
    MenuInv (l d).state := by
  rcases hl with hl | hl
  · exact (listener_inv l hl d h).1
  · rw [hl d]; exact h

theorem runListeners_inv (ls : List (MenuDom → Run MenuDom))
    (hls : ∀ l ∈ ls, IsMenuListener l ∨ IsPassiveListener l) (d : MenuDom)
    (h : MenuInv d) : MenuInv (runListeners ls d).1 := by
  unfold runListeners
  suffices H : ∀ (acc : MenuDom × List JsError), MenuInv acc.1 →
      MenuInv (ls.foldl (fun acc l =>
        ((l acc.1).state, acc.2 ++ (l acc.1).threw.toList)) acc).1 from
    H (d, []) h
  induction ls with
  | nil => intro acc h1; exact h1
  | cons l ls ih =>
    intro acc h1
    simp only [List.foldl_cons]
    exact ih (fun l' hl' => hls l' (List.mem_cons_of_mem _ hl')) _
      (listener_keeps l (hls l (List.mem_cons_self _ _)) acc.1 h1)

theorem hitListener_kind (page : Page) (h : Hit) :
    IsMenuListener (hitListener page h) ∨ IsPassiveListener (hitListener page h) := by
  cases h with
  | navLink => exact Or.inl (Or.inr (Or.inl rfl))
  | menuButton => exact Or.inl (Or.inl rfl)
  | anchor href => exact Or.inr (fun _ => rfl)
  | backToTop => exact Or.inr (fun _ => rfl)

theorem clickPath_listeners (page : Page) (t : ClickTarget) :
    ∀ l ∈ clickPath page t, IsMenuListener l ∨ IsPassiveListener l := by
  intro l hl
  simp only [clickPath, List.mem_append, List.mem_map, List.mem_singleton] at hl
  rcases hl with ⟨h, -, rfl⟩ | rfl
  · exact hitListener_kind page h
  · exact Or.inl (Or.inr (Or.inr (Or.inl ⟨_, _, rfl⟩)))

theorem dispatch_inv (page : Page) (e : MenuEvent) (d : MenuDom) (h : MenuInv d) :
    MenuInv (dispatch page e d).1 := by
  cases e with
  | click t => exact runListeners_inv _ (clickPath_listeners page t) d h
  | keydown k =>
    apply runListeners_inv _ _ d h
    intro l hl
    simp only [List.mem_singleton] at hl
    subst hl
    exact Or.inl (Or.inr (Or.inr (Or.inr ⟨k, rfl⟩)))

theorem menuTrace_inv (page : Page) (events : List MenuEvent) (d : MenuDom)
    (h : MenuInv d) : ∀ r ∈ menuTrace page events d, MenuInv r.1 := by
  induction events generalizing d with
  | nil => intro r hr; simp [menuTrace] at hr
  | cons e es ih =>
    intro r hr
    simp only [menuTrace, List.mem_cons] at hr
    rcases hr with rfl | hr
    · exact dispatch_inv page e d h
    · exact ih _ (dispatch_inv page e d h) r hr

/-- C1. Starting from a Closed menu (button and panel present, neither
carries `active`, body overflow not `hidden`), on any page, after each event
of any finite sequence of menu events (clicks with any target, reaching any
click listeners of the script, and any keydown) the flags button-active,
panel-active and scroll-lock are all true or all false. -/
theorem menu_consistency_invariant (page : Page) (b n : ClassList) (o : String)
    (h0 : isClosed ⟨some b, some n, o⟩) (events : List MenuEvent) :
    ∀ r ∈ menuTrace page events ⟨some b, some n, o⟩, consistent r.1 :=
  fun r hr => (menuTrace_inv page events _ (MenuInv.of_closed b n o h0) r hr).consistent

theorem menu_consistency_invariant_witness :
    isClosed ⟨some ⟨["mobile-menu-btn"]⟩, some ⟨["nav-menu"]⟩, ""⟩ ∧
    ∀ r ∈ menuTrace anchorPage [menuButtonClicked false, escapePressed, .keydown "a",
        navLinkClicked (some "#about") true, menuButtonClicked false,
        outsideClicked (some "#"), .click ⟨[.navLink, .menuButton], false⟩,
        .click ⟨[.backToTop], false⟩]
        ⟨some ⟨["mobile-menu-btn"]⟩, some ⟨["nav-menu"]⟩, ""⟩, consistent r.1 :=
  ⟨by decide,
    menu_consistency_invariant anchorPage ⟨["mobile-menu-btn"]⟩ ⟨["nav-menu"]⟩ ""
      (by decide) _⟩

theorem ClassList.remove_remove (cl : ClassList) (t : String) :
    (cl.remove t).remove t = cl.remove t :=
  ClassList.remove_absent _ _ (by simp [ClassList.contains_remove])

theorem dispatch_menuButtonClicked (page : Page) (b n : ClassList) (o : String)
    (inPanel : Bool) :
    dispatch page (menuButtonClicked inPanel) ⟨some b, some n, o⟩ =
      (⟨some (b.toggle "active"), some (n.toggle "active"),
        if (n.toggle "active").contains "active" then "hidden" else ""⟩, []) := by
  simp [dispatch, menuButtonClicked, clickPath, hitListener, runListeners,
    menuBtnClick_present, documentClick]

theorem dispatch_navLinkClicked (page : Page) (b n : ClassList) (o : String)
    (anchor : Option String) (inPanel : Bool) :
    dispatch page (navLinkClicked anchor inPanel) ⟨some b, some n, o⟩ =
      (⟨some (b.remove "active"), some (n.remove "active"), ""⟩,
        anchorErrors page anchor) := by
  cases anchor <;> cases inPanel <;>
    simp [dispatch, navLinkClicked, anchorPath, anchorErrors, clickPath, hitListener,
      runListeners, navLinkClick, anchorClick, closeStatements_present, documentClick,
      ClassList.remove_remove]

theorem dispatch_outsideClicked (page : Page) (b n : ClassList) (o : String)
    (anchor : Option String) :
    dispatch page (outsideClicked anchor) ⟨some b, some n, o⟩ =
      (⟨some (b.remove "active"), some (n.remove "active"), ""⟩,
        anchorErrors page anchor) := by
  cases anchor <;>
    simp [dispatch, outsideClicked, anchorPath, anchorErrors, clickPath, hitListener,
      runListeners, anchorClick, closeStatements_present, documentClick]

theorem dispatch_escapePressed (page : Page) (b n : ClassList) (o : String) :
    dispatch page escapePressed ⟨some b, some n, o⟩ =
      if n.contains "active" then
        (⟨some (b.remove "active"), some (n.remove "active"), ""⟩, [])
      else (⟨some b, some n, o⟩, []) := by
  by_cases h : n.contains "active" = true <;>
    simp [dispatch, escapePressed, runListeners, documentKeydown, h, closeStatements_present]

theorem closed_after_remove (b n : ClassList) :
    isClosed ⟨some (b.remove "active"), some (n.remove "active"), ""⟩ := by
  refine ⟨?_, ?_, ?_⟩
  · simp [buttonActive, ClassList.contains_remove]
  · simp [panelActive, ClassList.contains_remove]
  · simp [scrollLocked]

/-- The transition table on the menu state, for a menu whose button and panel
exist, on any page: a click on the menu button turns Closed into Open and
Open into Closed and throws nothing; a nav-link click, an outside click and
an Escape keydown each turn Open into Closed and leave the classes and the
scroll-lock of a Closed menu unchanged. The menu listeners throw nothing: the
errors of a nav-link or outside click are those of the smooth-scroll listener
of the anchor the click is on, and an Escape keydown throws nothing. -/
theorem menu_transition_table (page : Page) (b n : ClassList) (o : String)
    (inPanel : Bool) (anchor : Option String) :
    (isClosed ⟨some b, some n, o⟩ →
      isOpen (dispatch page (menuButtonClicked inPanel) ⟨some b, some n, o⟩).1) ∧
    (isOpen ⟨some b, some n, o⟩ →
      isClosed (dispatch page (menuButtonClicked inPanel) ⟨some b, some n, o⟩).1) ∧
    (dispatch page (menuButtonClicked inPanel) ⟨some b, some n, o⟩).2 = [] ∧
    (∀ e ∈ [navLinkClicked anchor inPanel, outsideClicked anchor, escapePressed],
      (isOpen ⟨some b, some n, o⟩ → isClosed (dispatch page e ⟨some b, some n, o⟩).1) ∧
      (isClosed ⟨some b, some n, o⟩ →
        (dispatch page e ⟨some b, some n, o⟩).1.mobileMenuBtn = some b ∧
        (dispatch page e ⟨some b, some n, o⟩).1.navMenu = some n ∧
        scrollLocked (dispatch page e ⟨some b, some n, o⟩).1 =
          scrollLocked ⟨some b, some n, o⟩)) ∧
    (dispatch page (navLinkClicked anchor inPanel) ⟨some b, some n, o⟩).2 =
      anchorErrors page anchor ∧
    (dispatch page (outsideClicked anchor) ⟨some b, some n, o⟩).2 =
      anchorErrors page anchor ∧
    (dispatch page escapePressed ⟨some b, some n, o⟩).2 = [] := by
  refine ⟨?_, ?_, ?_, ?_, ?_, ?_, ?_⟩
  · rintro ⟨h1, h2, -⟩
    simp only [buttonActive, panelActive] at h1 h2
    rw [dispatch_menuButtonClicked]
    refine ⟨?_, ?_, ?_⟩
    · simp [buttonActive, ClassList.contains_toggle, h1]
    · simp [panelActive, ClassList.contains_toggle, h2]
    · simp [scrollLocked, ClassList.contains_toggle, h2]
  · rintro ⟨h1, h2, -⟩
    simp only [buttonActive, panelActive] at h1 h2
    rw [dispatch_menuButtonClicked]
    refine ⟨?_, ?_, ?_⟩
    · simp [buttonActive, ClassList.contains_toggle, h1]
    · simp [panelActive, ClassList.contains_toggle, h2]
    · simp [scrollLocked, ClassList.contains_toggle, h2]
  · rw [dispatch_menuButtonClicked]
  · intro e he
    simp only [List.mem_cons, List.mem_singleton, List.not_mem_nil, or_false] at he
    have hclose : ∀ x : MenuDom × List JsError,
        x.1 = ⟨some (b.remove "active"), some (n.remove "active"), ""⟩ →
        (isOpen ⟨some b, some n, o⟩ → isClosed x.1) ∧
        (isClosed ⟨some b, some n, o⟩ →
          x.1.mobileMenuBtn = some b ∧ x.1.navMenu = some n ∧
          scrollLocked x.1 = scrollLocked ⟨some b, some n, o⟩) := by
      rintro x hx
      rw [hx]
      refine ⟨fun _ => closed_after_remove b n, ?_⟩
      rintro ⟨h1, h2, h3⟩
      simp only [buttonActive, panelActive] at h1 h2
      refine ⟨?_, ?_, ?_⟩
      · simp only [ClassList.remove_absent b _ h1]
      · simp only [ClassList.remove_absent n _ h2]
      · rw [h3]; simp [scrollLocked]
    rcases he with rfl | rfl | rfl
    · exact hclose _ (by rw [dispatch_navLinkClicked])
    · exact hclose _ (by rw [dispatch_outsideClicked])
    · by_cases ha : n.contains "active" = true
      · exact hclose _ (by rw [dispatch_escapePressed, if_pos ha])
      · rw [dispatch_escapePressed, if_neg ha]
        refine ⟨?_, fun _ => ⟨rfl, rfl, rfl⟩⟩
        rintro ⟨-, h2, -⟩
        simp only [panelActive] at h2
        exact absurd h2 ha
  · rw [dispatch_navLinkClicked]
  · rw [dispatch_outsideClicked]
  · rw [dispatch_escapePressed]; split <;> rfl

theorem smoothScrollClick_bare_hash (page : Page) :
    smoothScrollClick page "#" = ⟨true, [], some .syntaxError⟩ := rfl

/-- C2 (what the code does). On every page, with the menu Closed: a click on
a nav link that is an `a[href="#"]`, and a click outside the button and the
panel on such an anchor, leave the button classes, the panel classes and the
body overflow as they are, and the click throws a `SyntaxError`, raised by
the smooth-scroll listener the same click reaches; a nav-link click that
reaches no anchor listener and an Escape keydown throw nothing. -/
theorem nav_link_bare_hash_click_throws (page : Page) (inPanel : Bool) :
    isClosed closedMenu ∧
    dispatch page (navLinkClicked (some "#") inPanel) closedMenu =
      (closedMenu, [.syntaxError]) ∧
    dispatch page (outsideClicked (some "#")) closedMenu = (closedMenu, [.syntaxError]) ∧
    dispatch page (navLinkClicked none inPanel) closedMenu = (closedMenu, []) ∧
    dispatch page escapePressed closedMenu = (closedMenu, []) := by
  have hb : (⟨["mobile-menu-btn"]⟩ : ClassList).remove "active" = ⟨["mobile-menu-btn"]⟩ := by
    decide
  have hn : (⟨["nav-menu"]⟩ : ClassList).remove "active" = ⟨["nav-menu"]⟩ := by decide
  have hc : (⟨["nav-menu"]⟩ : ClassList).contains "active" = false := by decide
  refine ⟨by decide, ?_, ?_, ?_, ?_⟩
  · rw [closedMenu, dispatch_navLinkClicked, hb, hn]
    simp [anchorErrors, smoothScrollClick_bare_hash]
  · rw [closedMenu, dispatch_outsideClicked, hb, hn]
    simp [anchorErrors, smoothScrollClick_bare_hash]
  · rw [closedMenu, dispatch_navLinkClicked, hb, hn]
    simp [anchorErrors]
  · rw [closedMenu, dispatch_escapePressed, hc]
    simp

/-! ## Email copy -/

theorem freshNodeId_gt (body : List Node) : ∀ n ∈ body, n.id < freshNodeId body := by
  unfold freshNodeId
  induction body with
  | nil => intro n hn; simp at hn
  | cons a as ih =>
    intro n hn
    simp only [List.map_cons, List.foldr_cons]
    rcases List.mem_cons.mp hn with rfl | h
    · omega
    · have := ih n h
      omega

theorem freshNodeId_ne (body : List Node) : ∀ n ∈ body, ¬ n.id = freshNodeId body := by
  intro n hn h
  have := freshNodeId_gt body n hn
  omega

theorem fallbackCopyEmail_returns (text : String) (copied : Bool) (w : CopyWorld)
    (btn : Button) (hb : w.copyBtn = some btn) :
    fallbackCopyEmail text (.returns copied) w =
      ⟨{ w with
          copyBtn := some { textContent := "Copied!", background := "#90EE90" }
          timers := w.timers ++ [⟨w.nextTimer, 2000, w.now + 2000, btn.textContent⟩]
          nextTimer := w.nextTimer + 1
          clipboard := if copied then some text else w.clipboard
          calls := w.calls ++ [.fallbackCopyEmail text, .execCommand, .showCopySuccess] },
        none⟩ := by
  simp [fallbackCopyEmail, fallbackTry, showCopySuccess, hb, removeChild]
  exact freshNodeId_ne w.body

theorem fallbackCopyEmail_throws (text : String) (w : CopyWorld)
    (btn : Button) (hb : w.copyBtn = some btn) :
    fallbackCopyEmail text .throws w =
      ⟨{ w with
          copyBtn := some { textContent := "Copy Failed", background := "#FFB6C1" }
          timers := w.timers ++ [⟨w.nextTimer, 2000, w.now + 2000, btn.textContent⟩]
          nextTimer := w.nextTimer + 1
          calls := w.calls ++ [.fallbackCopyEmail text, .execCommand,
            .consoleError "Fallback copy failed: ", .showCopyError] },
        none⟩ := by
  simp [fallbackCopyEmail, fallbackTry, fallbackCatch, showCopyError, hb, removeChild]
  exact freshNodeId_ne w.body

theorem callsSince_append (w w2 : CopyWorld) (new : List Call)
    (h : w2.calls = w.calls ++ new) : callsSince w w2 = new := by
  simp [callsSince, h]

theorem copyAttempt_sync (env : Env) (write : WriteOutcome) (exec : ExecOutcome)
    (w : CopyWorld) (e : String) (he : w.emailText = some e)
    (henv : (env.clipboardApi && env.isSecureContext) = false) :
    copyAttempt env write exec w =
      ⟨(fallbackCopyEmail e exec w).state, (fallbackCopyEmail e exec w).threw, none, false⟩ := by
  simp [copyAttempt, copyEmail, he, henv]

theorem copyAttempt_fulfils (env : Env) (exec : ExecOutcome)
    (w : CopyWorld) (e : String) (btn : Button)
    (he : w.emailText = some e) (hb : w.copyBtn = some btn)
    (henv : (env.clipboardApi && env.isSecureContext) = true) :
    copyAttempt env .fulfils exec w =
      ⟨{ w with
          copyBtn := some { textContent := "Copied!", background := "#90EE90" }
          timers := w.timers ++ [⟨w.nextTimer, 2000, w.now + 2000, btn.textContent⟩]
          nextTimer := w.nextTimer + 1
          clipboard := some e
          calls := w.calls ++ [.writeText e, .showCopySuccess] }, none, none, true⟩ := by
  simp [copyAttempt, copyEmail, he, henv, settleWrite, showCopySuccess, hb]

theorem copyAttempt_rejects (env : Env) (exec : ExecOutcome)
    (w : CopyWorld) (e : String) (he : w.emailText = some e)
    (henv : (env.clipboardApi && env.isSecureContext) = true) :
    copyAttempt env .rejects exec w =
      ⟨(fallbackCopyEmail e exec
          { w with calls := w.calls ++ [.writeText e, .consoleError "Failed to copy email: "] }).state,
        none,
        (fallbackCopyEmail e exec
          { w with calls := w.calls ++ [.writeText e, .consoleError "Failed to copy email: "] }).threw,
        true⟩ := by
  simp [copyAttempt, copyEmail, he, henv, settleWrite, onWriteRejected]

theorem fallback_calls (text : String) (exec : ExecOutcome) (w : CopyWorld) (btn : Button)
    (hb : w.copyBtn = some btn) :
    (fallbackCopyEmail text exec w).threw = none ∧
    (fallbackCopyEmail text exec w).state.body = w.body ∧
    (fallbackCopyEmail text exec w).state.copyBtn =
      some (if exec = .throws then { textContent := "Copy Failed", background := "#FFB6C1" }
        else { textContent := "Copied!", background := "#90EE90" }) ∧
    ∃ mid, (fallbackCopyEmail text exec w).state.calls =
        w.calls ++ ([.fallbackCopyEmail text, .execCommand] ++ mid ++ [fallbackFeedback exec]) ∧
      feedbackCalls mid = [] ∧ fallbackRuns mid = 0 := by
  cases exec with
  | returns copied =>
    rw [fallbackCopyEmail_returns text copied w btn hb]
    exact ⟨rfl, rfl, by simp, [], by simp [fallbackFeedback], rfl, rfl⟩
  | throws =>
    rw [fallbackCopyEmail_throws text w btn hb]
    exact ⟨rfl, rfl, by simp, [.consoleError "Fallback copy failed: "],
      by simp [fallbackFeedback], rfl, rfl⟩

theorem feedbackCalls_append (a b : List Call) :
    feedbackCalls (a ++ b) = feedbackCalls a ++ feedbackCalls b := by
  simp [feedbackCalls]

theorem fallbackRuns_append (a b : List Call) :
    fallbackRuns (a ++ b) = fallbackRuns a + fallbackRuns b := by
  simp [fallbackRuns]

theorem feedbackCalls_feedback (exec : ExecOutcome) :
    feedbackCalls [fallbackFeedback exec] = [fallbackFeedback exec] ∧
    fallbackRuns [fallbackFeedback exec] = 0 := by
  cases exec <;> exact ⟨rfl, rfl⟩

/-- C3. With the email element and the copy button present: (i) when the
clipboard API is available in a secure context and `writeText` fulfils, the
success feedback is applied and the fallback path does not run; (ii) when
`writeText` rejects, the fallback path runs exactly once and the feedback is
the one fixed by what the legacy copy command did (`showCopyError` when it
threw, `showCopySuccess` when it returned); (iii) when the API is unavailable
or the context is not secure, the fallback path runs directly, inside the
call. In every case exactly one feedback call is made, nothing is thrown to
the caller and no promise is left rejected. -/
theorem copy_path_selection (env : Env) (write : WriteOutcome) (exec : ExecOutcome)
    (w : CopyWorld) (e : String) (btn : Button)
    (he : w.emailText = some e) (hb : w.copyBtn = some btn) :
    ((env.clipboardApi && env.isSecureContext) = true → write = .fulfils →
      feedbackCalls (callsSince w (copyAttempt env write exec w).world) = [.showCopySuccess] ∧
      fallbackRuns (callsSince w (copyAttempt env write exec w).world) = 0 ∧
      successShown (copyAttempt env write exec w).world) ∧
    ((env.clipboardApi && env.isSecureContext) = true → write = .rejects →
      fallbackRuns (callsSince w (copyAttempt env write exec w).world) = 1 ∧
      feedbackCalls (callsSince w (copyAttempt env write exec w).world) =
        [fallbackFeedback exec]) ∧
    ((env.clipboardApi && env.isSecureContext) = false →
      (copyAttempt env write exec w).ranAsync = false ∧
      fallbackRuns (callsSince w (copyAttempt env write exec w).world) = 1 ∧
      feedbackCalls (callsSince w (copyAttempt env write exec w).world) =
        [fallbackFeedback exec]) ∧
    (feedbackCalls (callsSince w (copyAttempt env write exec w).world)).length = 1 ∧
    (copyAttempt env write exec w).thrownToCaller = none ∧
    (copyAttempt env write exec w).unhandledRejection = none := by
  have hful : (env.clipboardApi && env.isSecureContext) = true → write = .fulfils →
      feedbackCalls (callsSince w (copyAttempt env write exec w).world) = [.showCopySuccess] ∧
      fallbackRuns (callsSince w (copyAttempt env write exec w).world) = 0 ∧
      successShown (copyAttempt env write exec w).world ∧
      (copyAttempt env write exec w).thrownToCaller = none ∧
      (copyAttempt env write exec w).unhandledRejection = none := by
    intro henv hw
    subst hw
    rw [copyAttempt_fulfils env exec w e btn he hb henv]
    refine ⟨?_, ?_, rfl, rfl, rfl⟩
    · rw [callsSince_append w _ [.writeText e, .showCopySuccess] rfl]; rfl
    · rw [callsSince_append w _ [.writeText e, .showCopySuccess] rfl]; rfl
  have hrej : (env.clipboardApi && env.isSecureContext) = true → write = .rejects →
      fallbackRuns (callsSince w (copyAttempt env write exec w).world) = 1 ∧
      feedbackCalls (callsSince w (copyAttempt env write exec w).world) =
        [fallbackFeedback exec] ∧
      (copyAttempt env write exec w).thrownToCaller = none ∧
      (copyAttempt env write exec w).unhandledRejection = none := by
    intro henv hw
    subst hw
    rw [copyAttempt_rejects env exec w e he henv]
    obtain ⟨h1, -, -, mid, h4, h5, h6⟩ := fallback_calls e exec
      { w with calls := w.calls ++ [.writeText e, .consoleError "Failed to copy email: "] }
      btn hb
    have hc := callsSince_append w _ _ (h4.trans (List.append_assoc _ _ _))
    simp only [hc, h1]
    simp only [feedbackCalls_append, fallbackRuns_append, h5, h6,
      (feedbackCalls_feedback exec).1, (feedbackCalls_feedback exec).2]
    simp [fallbackRuns, feedbackCalls]
  have hsync : (env.clipboardApi && env.isSecureContext) = false →
      (copyAttempt env write exec w).ranAsync = false ∧
      fallbackRuns (callsSince w (copyAttempt env write exec w).world) = 1 ∧
      feedbackCalls (callsSince w (copyAttempt env write exec w).world) =
        [fallbackFeedback exec] ∧
      (copyAttempt env write exec w).thrownToCaller = none ∧
      (copyAttempt env write exec w).unhandledRejection = none := by
    intro henv
    rw [copyAttempt_sync env write exec w e he henv]
    obtain ⟨h1, -, -, mid, h4, h5, h6⟩ := fallback_calls e exec w btn hb
    have hc := callsSince_append w _ _ h4
    simp only [hc, h1]
    simp only [feedbackCalls_append, fallbackRuns_append, h5, h6,
      (feedbackCalls_feedback exec).1, (feedbackCalls_feedback exec).2]
    simp [fallbackRuns, feedbackCalls]
  refine ⟨fun a b => ⟨(hful a b).1, (hful a b).2.1, (hful a b).2.2.1⟩,
    fun a b => ⟨(hrej a b).1, (hrej a b).2.1⟩,
    fun a => ⟨(hsync a).1, (hsync a).2.1, (hsync a).2.2.1⟩, ?_⟩
  cases henv : (env.clipboardApi && env.isSecureContext) with
  | false =>
    obtain ⟨-, -, h3, h4, h5⟩ := hsync henv
    exact ⟨by rw [h3]; rfl, h4, h5⟩
  | true =>
    cases write with
    | fulfils =>
      obtain ⟨h1, -, -, h4, h5⟩ := hful henv rfl
      exact ⟨by rw [h1]; rfl, h4, h5⟩
    | rejects =>
      obtain ⟨-, h3, h4, h5⟩ := hrej henv rfl
      exact ⟨by rw [h3]; rfl, h4, h5⟩

theorem copy_path_selection_witness :
    examplePage.emailText = some "hello@example.com" ∧
    examplePage.copyBtn = some { textContent := "Copy Email", background := "" } ∧
    (feedbackCalls (callsSince examplePage
      (copyAttempt ⟨true, true⟩ .rejects .throws examplePage).world)).length = 1 ∧
    (copyAttempt ⟨true, true⟩ .rejects .throws examplePage).thrownToCaller = none :=
  ⟨rfl, rfl,
    (copy_path_selection ⟨true, true⟩ .rejects .throws examplePage _ _ rfl rfl).2.2.2.1,
    (copy_path_selection ⟨true, true⟩ .rejects .throws examplePage _ _ rfl rfl).2.2.2.2.1⟩

theorem fallbackStep_keeps (s : FallbackStep) (w : CopyWorld) (btn : Button)
    (hb : w.copyBtn = some btn) :
    (∃ btn2, (fallbackStep s w).copyBtn = some btn2) ∧ (fallbackStep s w).body = w.body := by
  cases s with
  | attempt text exec =>
    obtain ⟨-, h2, h3, -⟩ := fallback_calls text exec w btn hb
    exact ⟨⟨_, h3⟩, h2⟩
  | timerFires =>
    simp only [fallbackStep]
    cases h : w.timers with
    | nil => exact ⟨⟨btn, hb⟩, rfl⟩
    | cons t ts => simp [fireRevert, hb]

theorem fallbackSession_keeps (steps : List FallbackStep) (w : CopyWorld) (btn : Button)
    (hb : w.copyBtn = some btn) : (fallbackSession steps w).body = w.body := by
  induction steps generalizing w btn with
  | nil => rfl
  | cons s ss ih =>
    obtain ⟨⟨btn2, h1⟩, h2⟩ := fallbackStep_keeps s w btn hb
    simp only [fallbackSession, List.foldl_cons]
    exact (ih (fallbackStep s w) btn2 h1).trans h2

theorem fallback_finishes_clean (text : String) (exec : ExecOutcome) (w : CopyWorld)
    (h : (fallbackCopyEmail text exec w).threw = none) :
    (fallbackCopyEmail text exec w).state.body = w.body := by
  cases hb : w.copyBtn with
  | some btn => exact (fallback_calls text exec w btn hb).2.1
  | none =>
    exfalso
    cases exec <;>
      simp [fallbackCopyEmail, fallbackTry, fallbackCatch, showCopySuccess, showCopyError,
        hb] at h

/-- C4. For every page, text and outcome of the legacy copy command: when
`fallbackCopyEmail` finishes (it returns, which it does whenever the copy
button exists), the children of the body are the ones before the call and
the textarea it appended is not among them; hence after any session of
fallback attempts (forced failures included) and timer firings the body is
the initial one and holds no temporary textarea. -/
theorem fallback_cleanup (w : CopyWorld) (text : String) (exec : ExecOutcome) :
    ((fallbackCopyEmail text exec w).threw = none →
      (fallbackCopyEmail text exec w).state.body = w.body ∧
      ∀ n ∈ (fallbackCopyEmail text exec w).state.body, n.id ≠ freshNodeId w.body) ∧
    (w.copyBtn.isSome = true →
      (fallbackCopyEmail text exec w).threw = none ∧
      ∀ steps : List FallbackStep,
        (fallbackSession steps w).body = w.body ∧
        (textAreas w = [] → textAreas (fallbackSession steps w) = [])) := by
  constructor
  · intro h
    have hbody := fallback_finishes_clean text exec w h
    refine ⟨hbody, ?_⟩
    rw [hbody]
    exact freshNodeId_ne w.body
  · intro hs
    obtain ⟨btn, hb⟩ := Option.isSome_iff_exists.mp hs
    refine ⟨(fallback_calls text exec w btn hb).1, fun steps => ?_⟩
    have hbody := fallbackSession_keeps steps w btn hb
    exact ⟨hbody, fun h => by simpa [textAreas, hbody] using h⟩

theorem fallback_cleanup_witness :
    ((fallbackCopyEmail "hello@example.com" .throws examplePage).threw = none ∧
      (fallbackCopyEmail "hello@example.com" .throws examplePage).state.body =
        examplePage.body) ∧
    (examplePage.copyBtn.isSome = true ∧ textAreas examplePage = [] ∧
      textAreas (fallbackSession
        [.attempt "a" .throws, .attempt "b" (.returns false), .timerFires,
          .attempt "c" (.returns true)] examplePage) = []) :=
  ⟨⟨by decide,
    ((fallback_cleanup examplePage "hello@example.com" .throws).1 (by decide)).1⟩,
   ⟨rfl, rfl,
    (((fallback_cleanup examplePage "hello@example.com" .throws).2 rfl).2 _).2 rfl⟩⟩

/-- C5 (what the code does). When the legacy copy command reports that nothing
was copied by returning `false`, the fallback path still applies the success
feedback: the button reads `Copied!` on `#90EE90`, `showCopyError` is not
called, and the clipboard is unchanged. -/
theorem fallback_false_return_shows_success (emailText : Option String) (btn : Button)
    (body : List Node) (timers : List RevertTimer) (nextTimer now : Nat)
    (clipboard : Option String) (calls : List Call) (text : String) :
    successShown (fallbackCopyEmail text (.returns false)
      ⟨emailText, some btn, body, timers, nextTimer, now, clipboard, calls⟩).state ∧
    ¬ failureShown (fallbackCopyEmail text (.returns false)
      ⟨emailText, some btn, body, timers, nextTimer, now, clipboard, calls⟩).state ∧
    callsSince ⟨emailText, some btn, body, timers, nextTimer, now, clipboard, calls⟩
      (fallbackCopyEmail text (.returns false)
        ⟨emailText, some btn, body, timers, nextTimer, now, clipboard, calls⟩).state =
      [.fallbackCopyEmail text, .execCommand, .showCopySuccess] ∧
    (fallbackCopyEmail text (.returns false)
      ⟨emailText, some btn, body, timers, nextTimer, now, clipboard, calls⟩).state.clipboard =
      clipboard ∧
    execSucceeded (.returns false) = false := by
  rw [fallbackCopyEmail_returns text false _ btn rfl]
  refine ⟨rfl, ?_, ?_, rfl, rfl⟩
  · simp [failureShown]
  · exact callsSince_append _ _ _ rfl

/-- C6 (counterexample). A button whose inline background is `red` before the
attempt has the empty inline background, not `red`, once the timer of
`showCopySuccess` has fired. -/
theorem feedback_revert_counterexample :
    styledButtonPage.copyBtn = some { textContent := "Copy Email", background := "red" } ∧
    (showCopySuccess styledButtonPage).state.timers = [⟨1, 2000, 2000, "Copy Email"⟩] ∧
    (fireRevert ⟨1, 2000, 2000, "Copy Email"⟩ (showCopySuccess styledButtonPage).state).copyBtn =
      some { textContent := "Copy Email", background := "" } ∧
    (fireRevert ⟨1, 2000, 2000, "Copy Email"⟩ (showCopySuccess styledButtonPage).state).copyBtn ≠
      styledButtonPage.copyBtn := by
  decide

theorem showCopySuccess_present (w : CopyWorld) (btn : Button) (hb : w.copyBtn = some btn) :
    showCopySuccess w =
      ⟨{ w with
          copyBtn := some { textContent := "Copied!", background := "#90EE90" }
          timers := w.timers ++ [⟨w.nextTimer, 2000, w.now + 2000, btn.textContent⟩]
          nextTimer := w.nextTimer + 1
          calls := w.calls ++ [.showCopySuccess] }, none⟩ := by
  simp [showCopySuccess, hb]

theorem showCopyError_present (w : CopyWorld) (btn : Button) (hb : w.copyBtn = some btn) :
    showCopyError w =
      ⟨{ w with
          copyBtn := some { textContent := "Copy Failed", background := "#FFB6C1" }
          timers := w.timers ++ [⟨w.nextTimer, 2000, w.now + 2000, btn.textContent⟩]
          nextTimer := w.nextTimer + 1
          calls := w.calls ++ [.showCopyError] }, none⟩ := by
  simp [showCopyError, hb]

/-- C6 (amended). For a button with label `L` and inline background `B`,
`showCopySuccess` (resp. `showCopyError`) sets the label to `Copied!` (resp.
`Copy Failed`) and the background to `#90EE90` (resp. `#FFB6C1`) and adds
exactly one timer, of delay 2000 ms; when that timer fires with the button
untouched in between, the label is `L` again and the inline background is the
empty string, which is `B` exactly when `B` was empty. -/
theorem feedback_revert (w : CopyWorld) (btn : Button) (hb : w.copyBtn = some btn) :
    ((showCopySuccess w).threw = none ∧
      (showCopySuccess w).state.copyBtn =
        some { textContent := "Copied!", background := "#90EE90" } ∧
      ∃ t, (showCopySuccess w).state.timers = w.timers ++ [t] ∧
        t.delay = 2000 ∧ t.due = w.now + 2000 ∧
        (fireRevert t (showCopySuccess w).state).copyBtn =
          some { textContent := btn.textContent, background := "" } ∧
        ((fireRevert t (showCopySuccess w).state).copyBtn = some btn ↔
          btn.background = "")) ∧
    ((showCopyError w).threw = none ∧
      (showCopyError w).state.copyBtn =
        some { textContent := "Copy Failed", background := "#FFB6C1" } ∧
      ∃ t, (showCopyError w).state.timers = w.timers ++ [t] ∧
        t.delay = 2000 ∧ t.due = w.now + 2000 ∧
        (fireRevert t (showCopyError w).state).copyBtn =
          some { textContent := btn.textContent, background := "" } ∧
        ((fireRevert t (showCopyError w).state).copyBtn = some btn ↔
          btn.background = "")) := by
  have key : (some ({ textContent := btn.textContent, background := "" } : Button) = some btn ↔
      btn.background = "") := by
    obtain ⟨l, bg⟩ := btn
    simp only [Option.some.injEq, Button.mk.injEq, true_and]
    exact eq_comm
  constructor
  · rw [showCopySuccess_present w btn hb]
    refine ⟨rfl, rfl, _, rfl, rfl, rfl, ?_, ?_⟩
    · simp [fireRevert]
    · simpa [fireRevert] using key
  · rw [showCopyError_present w btn hb]
    refine ⟨rfl, rfl, _, rfl, rfl, rfl, ?_, ?_⟩
    · simp [fireRevert]
    · simpa [fireRevert] using key

theorem feedback_revert_witness :
    examplePage.copyBtn = some { textContent := "Copy Email", background := "" } ∧
    (showCopySuccess examplePage).state.copyBtn =
      some { textContent := "Copied!", background := "#90EE90" } ∧
    (showCopyError examplePage).state.copyBtn =
      some { textContent := "Copy Failed", background := "#FFB6C1" } :=
  ⟨rfl, (feedback_revert examplePage _ rfl).1.2.1, (feedback_revert examplePage _ rfl).2.2.1⟩

/-! ## Back-to-top visibility -/

theorem ClassList.add_present (cl : ClassList) (t : String) (h : cl.contains t = true) :
    cl.add t = cl := by
  simp [ClassList.add, h]

theorem visibility_update (y : ℚ) (cl : ClassList) :
    (((if y > 300 then cl.add "visible" else cl.remove "visible").contains "visible" = true ↔
        y > 300) ∧
      (∀ c, c ≠ "visible" →
        (if y > 300 then cl.add "visible" else cl.remove "visible").contains c =
          cl.contains c)) ∧
    (if y > 300 then (if y > 300 then cl.add "visible" else cl.remove "visible").add "visible"
      else (if y > 300 then cl.add "visible" else cl.remove "visible").remove "visible") =
      (if y > 300 then cl.add "visible" else cl.remove "visible") := by
  by_cases h : y > 300
  · simp only [h, if_true, iff_true]
    refine ⟨⟨by simp [ClassList.contains_add], fun c hc => ?_⟩, ?_⟩
    · simp [ClassList.contains_add, hc]
    · exact ClassList.add_present _ _ (by simp [ClassList.contains_add])
  · simp only [h, if_false, iff_false]
    refine ⟨⟨by simp [ClassList.contains_remove], fun c hc => ?_⟩, ?_⟩
    · simp [ClassList.contains_remove, hc]
    · exact ClassList.remove_remove _ _

theorem backToTopScrollListener_present (now : Nat) (y : ℚ) (cl : ClassList)
    (writes : List (Nat × Bool)) :
    backToTopScrollListener now ⟨y, some cl, writes⟩ =
      ⟨⟨y, some (if y > 300 then cl.add "visible" else cl.remove "visible"),
        writes ++ [(now, decide (y > 300))]⟩, none⟩ := by
  by_cases h : y > 300 <;> simp [backToTopScrollListener, h]

theorem throttledScrollCallback_present (now : Nat) (y : ℚ) (cl : ClassList)
    (writes : List (Nat × Bool)) :
    throttledScrollCallback now ⟨y, some cl, writes⟩ =
      ⟨⟨y, some (if y > 300 then cl.add "visible" else cl.remove "visible"),
        writes ++ [(now, decide (y > 300))]⟩, none⟩ := by
  by_cases h : y > 300 <;> simp [throttledScrollCallback, h]

/-- C7. For every vertical offset `y` and every class list of the back-to-top
control, after either scroll handler of the script ran the control carries
`visible` if and only if `y > 300`, every other class is on the control
exactly when it was before, the handler threw nothing, and a second run at
the same offset leaves the class list and the offset as after the first. -/
theorem scroll_visibility_threshold (y : ℚ) (cl : ClassList) (writes : List (Nat × Bool))
    (now now2 : Nat) :
    ∀ handler ∈ [backToTopScrollListener, throttledScrollCallback],
      (handler now ⟨y, some cl, writes⟩).threw = none ∧
      (isVisible (handler now ⟨y, some cl, writes⟩).state = true ↔ y > 300) ∧
      (∃ cl2, (handler now ⟨y, some cl, writes⟩).state.backToTop = some cl2 ∧
        ∀ c, c ≠ "visible" → cl2.contains c = cl.contains c) ∧
      (handler now2 (handler now ⟨y, some cl, writes⟩).state).state.backToTop =
        (handler now ⟨y, some cl, writes⟩).state.backToTop ∧
      (handler now2 (handler now ⟨y, some cl, writes⟩).state).state.pageYOffset = y ∧
      (handler now ⟨y, some cl, writes⟩).state.pageYOffset = y := by
  obtain ⟨⟨h1, h2⟩, h3⟩ := visibility_update y cl
  intro handler hh
  simp only [List.mem_cons, List.mem_singleton, List.not_mem_nil, or_false] at hh
  rcases hh with rfl | rfl
  · rw [backToTopScrollListener_present, backToTopScrollListener_present]
    exact ⟨rfl, h1, ⟨_, rfl, h2⟩, by rw [h3], rfl, rfl⟩
  · rw [throttledScrollCallback_present, throttledScrollCallback_present]
    exact ⟨rfl, h1, ⟨_, rfl, h2⟩, by rw [h3], rfl, rfl⟩

theorem scroll_visibility_threshold_witness :
    backToTopScrollListener ∈ [backToTopScrollListener, throttledScrollCallback] ∧
    (isVisible (backToTopScrollListener 0 ⟨301, some ⟨["btn"]⟩, []⟩).state = true ↔
      (301 : ℚ) > 300) :=
  ⟨List.mem_cons_self _ _,
    (scroll_visibility_threshold 301 ⟨["btn"]⟩ [] 0 0 _ (List.mem_cons_self _ _)).2.1⟩

/-! ## `throttle` -/

theorem callAt_first {α σ : Type} (func : Nat → α → σ → σ) (wait : Nat) (c : Nat × α)
    (s : ThrottleSys α σ) (hp : s.pending = []) (he : s.executed = []) (hn : s.now ≤ c.1) :
    Armed wait s.user c.1 c.2 (callAt func wait c s) := by
  obtain ⟨now, nextId, timeout, pending, executed, user⟩ := s
  simp only at hp he hn
  subst hp he
  refine ⟨?_, ?_, ?_, nextId, ?_, ?_⟩ <;>
    simp [callAt, advance, fireDue, executedFunction, clearTimeout, max_eq_right hn]

theorem callAt_next {α σ : Type} (func : Nat → α → σ → σ) (wait : Nat) (user : σ)
    (t : Nat) (a : α) (c : Nat × α) (s : ThrottleSys α σ) (h : Armed wait user t a s)
    (h1 : t ≤ c.1) (h2 : c.1 < t + wait) :
    Armed wait user c.1 c.2 (callAt func wait c s) := by
  obtain ⟨now, nextId, timeout, pending, executed, u⟩ := s
  obtain ⟨hn, he, hu, id, hp, ht⟩ := h
  simp only at hn he hu hp ht
  subst hn he hu hp ht
  have hd : ¬ (now + wait ≤ c.1) := by omega
  refine ⟨?_, ?_, ?_, nextId, ?_, ?_⟩ <;>
    simp [callAt, advance, fireDue, earliest, hd, executedFunction, clearTimeout,
      max_eq_right h1]

theorem advance_fires {α σ : Type} (func : Nat → α → σ → σ) (wait : Nat) (user : σ)
    (t : Nat) (a : α) (s : ThrottleSys α σ) (h : Armed wait user t a s)
    (T : Nat) (hT : t + wait ≤ T) :
    (advance func T s).executed = [(t + wait, a)] ∧
    (advance func T s).user = func (t + wait) a user ∧
    (advance func T s).pending = [] := by
  obtain ⟨now, nextId, timeout, pending, executed, u⟩ := s
  obtain ⟨hn, he, hu, id, hp, ht⟩ := h
  simp only at hn he hu hp ht
  subst hn he hu hp ht
  have hm : max now (now + wait) = now + wait := by omega
  simp [advance, fireDue, earliest, hT, later, clearTimeout, hm]

theorem advance_waits {α σ : Type} (func : Nat → α → σ → σ) (wait : Nat) (user : σ)
    (t : Nat) (a : α) (s : ThrottleSys α σ) (h : Armed wait user t a s)
    (T : Nat) (hT : T < t + wait) :
    (advance func T s).executed = [] ∧ (advance func T s).user = user := by
  obtain ⟨now, nextId, timeout, pending, executed, u⟩ := s
  obtain ⟨hn, he, hu, id, hp, ht⟩ := h
  simp only at hn he hu hp ht
  subst hn he hu hp ht
  have hd : ¬ (now + wait ≤ T) := by omega
  simp [advance, fireDue, earliest, hd]

theorem runCalls_burst {α σ : Type} (func : Nat → α → σ → σ) (wait : Nat) (user : σ)
    (cs : List (Nat × α)) :
    ∀ (c : Nat × α) (s : ThrottleSys α σ), Armed wait user c.1 c.2 s →
      isBurst wait (c :: cs) →
      Armed wait user ((c :: cs).getLast (List.cons_ne_nil _ _)).1
        ((c :: cs).getLast (List.cons_ne_nil _ _)).2 (runCalls func wait cs s) := by
  induction cs with
  | nil => intro c s h _; simpa [runCalls] using h
  | cons d ds ih =>
    intro c s h hb
    have hb2 : (c.1 ≤ d.1 ∧ d.1 < c.1 + wait) ∧ isBurst wait (d :: ds) := by
      simpa [isBurst, List.chain'_cons] using hb
    have hd := callAt_next func wait user c.1 c.2 d s h hb2.1.1 hb2.1.2
    have := ih d (callAt func wait d s) hd hb2.2
    simpa [runCalls, List.getLast_cons] using this

theorem OneTimer.length_le {α σ : Type} {s : ThrottleSys α σ} (h : OneTimer s) :
    s.pending.length ≤ 1 := by
  rcases h with h | ⟨x, h, -⟩ <;> simp [h]

theorem executedFunction_oneTimer {α σ : Type} (wait : Nat) (args : α)
    (s : ThrottleSys α σ) (h : OneTimer s) : OneTimer (executedFunction wait args s).1 := by
  right
  rcases h with h | ⟨x, h, ht⟩
  · exact ⟨⟨s.nextId, s.now + wait, args⟩, by simp [executedFunction, clearTimeout, h], rfl⟩
  · exact ⟨⟨s.nextId, s.now + wait, args⟩,
      by simp [executedFunction, clearTimeout, h, ht], rfl⟩

theorem fireDue_oneTimer {α σ : Type} (func : Nat → α → σ → σ) (T : Nat) (fuel : Nat) :
    ∀ s : ThrottleSys α σ, OneTimer s → OneTimer (fireDue func T fuel s) := by
  induction fuel with
  | zero => intro s h; simpa [fireDue] using h
  | succ k ih =>
    intro s h
    rcases id h with hp | ⟨x, hp, ht⟩
    · simpa [fireDue, hp, earliest] using h
    · by_cases hd : x.due ≤ T
      · simp only [fireDue, hp, earliest, hd, if_true]
        apply ih
        left
        simp [later, clearTimeout]
      · simpa [fireDue, hp, earliest, hd] using h

theorem advance_oneTimer {α σ : Type} (func : Nat → α → σ → σ) (T : Nat)
    (s : ThrottleSys α σ) (h : OneTimer s) : OneTimer (advance func T s) := by
  have := fireDue_oneTimer func T s.pending.length s h
  simpa [advance, OneTimer] using this

theorem runCalls_oneTimer {α σ : Type} (func : Nat → α → σ → σ) (wait : Nat)
    (cs : List (Nat × α)) :
    ∀ s : ThrottleSys α σ, OneTimer s → OneTimer (runCalls func wait cs s) := by
  induction cs with
  | nil => intro s h; simpa [runCalls] using h
  | cons c cs ih =>
    intro s h
    have h2 : OneTimer (callAt func wait c s) :=
      executedFunction_oneTimer wait c.2 _ (advance_oneTimer func c.1 s h)
    simpa [runCalls] using ih _ h2

theorem runCalls_armed {α σ : Type} (func : Nat → α → σ → σ) (wait : Nat) (user : σ)
    (calls : List (Nat × α)) (hne : calls ≠ []) (hb : isBurst wait calls) :
    Armed wait user (calls.getLast hne).1 (calls.getLast hne).2
      (runCalls func wait calls (ThrottleSys.init user)) := by
  cases calls with
  | nil => exact absurd rfl hne
  | cons c cs =>
    have h1 : Armed wait user c.1 c.2 (callAt func wait c (ThrottleSys.init user)) :=
      callAt_first func wait c (ThrottleSys.init user) rfl rfl (Nat.zero_le _)
    have := runCalls_burst func wait user cs c _ h1 hb
    simpa [runCalls] using this

/-- C8. Over the explicit timer model, for every interval `wait` and every
non-empty burst of calls of the wrapper (each call less than `wait` ms after
the previous one), `func` runs exactly once, at (time of the last call) +
`wait`, with the arguments of the last call, and not before; at every moment
(after any number of the calls and any lapse of time) at most one timer of the
wrapper is pending; and the wrapper returns `undefined`. -/
theorem throttle_trailing_debounce {α σ : Type} (func : Nat → α → σ → σ) (wait : Nat)
    (user : σ) (calls : List (Nat × α)) (hne : calls ≠ []) (hb : isBurst wait calls) :
    (∀ T, (calls.getLast hne).1 + wait ≤ T →
      (advance func T (runCalls func wait calls (ThrottleSys.init user))).executed =
        [((calls.getLast hne).1 + wait, (calls.getLast hne).2)] ∧
      (advance func T (runCalls func wait calls (ThrottleSys.init user))).user =
        func ((calls.getLast hne).1 + wait) (calls.getLast hne).2 user) ∧
    (∀ T, T < (calls.getLast hne).1 + wait →
      (advance func T (runCalls func wait calls (ThrottleSys.init user))).executed = [] ∧
      (advance func T (runCalls func wait calls (ThrottleSys.init user))).user = user) ∧
    (∀ k T,
      (runCalls func wait (calls.take k) (ThrottleSys.init user)).pending.length ≤ 1 ∧
      (advance func T
        (runCalls func wait (calls.take k) (ThrottleSys.init user))).pending.length ≤ 1) ∧
    (∀ (args : α) (s : ThrottleSys α σ), (executedFunction wait args s).2 = JsValue.undefined) := by
  have harmed := runCalls_armed func wait user calls hne hb
  refine ⟨fun T hT => ?_, fun T hT => ?_, fun k T => ?_, fun _ _ => rfl⟩
  · have := advance_fires func wait user _ _ _ harmed T hT
    exact ⟨this.1, this.2.1⟩
  · exact advance_waits func wait user _ _ _ harmed T hT
  · have h0 : OneTimer (ThrottleSys.init user : ThrottleSys α σ) := Or.inl rfl
    have h1 := runCalls_oneTimer func wait (calls.take k) _ h0
    exact ⟨h1.length_le, (advance_oneTimer func T _ h1).length_le⟩

theorem throttle_trailing_debounce_witness :
    isBurst 100 [(0, "a"), (50, "b"), (120, "c")] ∧
    (advance (fun _ (x : String) (u : List String) => u ++ [x]) 300
      (runCalls (fun _ (x : String) (u : List String) => u ++ [x]) 100
        [(0, "a"), (50, "b"), (120, "c")] (ThrottleSys.init []))).executed = [(220, "c")] :=
  ⟨by simp [isBurst],
    ((throttle_trailing_debounce (fun _ (x : String) (u : List String) => u ++ [x]) 100 []
      [(0, "a"), (50, "b"), (120, "c")] (by simp) (by simp [isBurst])).1 300
        (by simp)).1⟩

/-! ## Scroll bursts -/

theorem scrollEvent_first (y0 y : ℚ) (cl : ClassList) (t : Nat) :
    (scrollEvent (t, y) (ThrottleSys.init ⟨y0, some cl, []⟩)).user.writes =
      [(t, decide (y > 300))] ∧
    (scrollEvent (t, y) (ThrottleSys.init ⟨y0, some cl, []⟩)).executed = [] ∧
    (scrollEvent (t, y) (ThrottleSys.init ⟨y0, some cl, []⟩)).pending =
      [⟨1, t + scrollWait, ()⟩] := by
  simp [scrollEvent, ThrottleSys.init, advance, fireDue, executedFunction, clearTimeout,
    backToTopScrollListener_present]

/-- C9 (what the code does). On a page at rest with both scroll listeners
registered, a burst of two scroll events at 0 ms and 50 ms, both at offset
400, writes the `visible` class at 0 ms and at 50 ms, before the throttled
handler has run at all (the control is visible right after the first event);
the throttled handler then writes it a third time at 150 ms. -/
theorem scroll_burst_writes_at_every_event :
    isBurst scrollWait [(0, (400 : ℚ)), (50, 400)] ∧
    (scrollEvents [(0, 400)] scrollPage).user.writes = [(0, true)] ∧
    isVisible (scrollEvents [(0, 400)] scrollPage).user = true ∧
    (scrollEvents [(0, 400)] scrollPage).executed = [] ∧
    (scrollEvents [(0, 400), (50, 400)] scrollPage).user.writes = [(0, true), (50, true)] ∧
    (scrollEvents [(0, 400), (50, 400)] scrollPage).executed = [] ∧
    (advance throttledFunc 150
      (scrollEvents [(0, 400), (50, 400)] scrollPage)).user.writes =
        [(0, true), (50, true), (150, true)] ∧
    (advance throttledFunc 150
      (scrollEvents [(0, 400), (50, 400)] scrollPage)).executed = [(150, ())] := by
  have h400 : (400 : ℚ) > 300 := by norm_num
  refine ⟨by simp [isBurst, scrollWait], ?_, ?_, ?_, ?_, ?_, ?_, ?_⟩ <;>
    simp [scrollEvents, scrollPage, scrollEvent, ThrottleSys.init, advance, fireDue,
      earliest, later, executedFunction, clearTimeout, backToTopScrollListener_present,
      throttledFunc, throttledScrollCallback_present, scrollWait, isVisible, h400,
      ClassList.add, ClassList.contains]

/-! ## Anchor navigation -/

theorem scrollToSection_missing (p : Page) (sectionId : String)
    (h : getElementById p sectionId = none) :
    scrollToSection p sectionId = ⟨false, [], none⟩ := by
  simp [scrollToSection, h]

theorem getElementById_missing (p : Page) (id : String) (h : namesNoElement p id) :
    getElementById p id = none := by
  unfold getElementById
  split
  · rfl
  · rw [List.find?_eq_none]
    intro s hs
    simpa using h s hs

theorem smoothScrollClick_ident_missing (p : Page) (r : List Char)
    (hr : simpleIdent r = true) (h : namesNoElement p (String.mk r)) :
    smoothScrollClick p (String.mk ('#' :: r)) = ⟨true, [], none⟩ := by
  have hq : querySelector p (String.mk ('#' :: r)) = .ok none := by
    cases r with
    | nil => simp [simpleIdent] at hr
    | cons c cs => simp [querySelector, hr, getElementById_missing p _ h]
  simp [smoothScrollClick, hq]

/-- C10 (what the code does). For every page, the fragment of `href="#"` is
empty and names no element, and activating such a link suppresses the default
navigation and scrolls nothing, but throws: `document.querySelector('#')`
raises a `SyntaxError`. `scrollToSection('')`, which looks the id up with
`getElementById`, does nothing and throws nothing. -/
theorem smoothScroll_bare_hash_throws (p : Page) :
    fragmentOf "#" = "" ∧
    getElementById p (fragmentOf "#") = none ∧
    smoothScrollClick p "#" = ⟨true, [], some .syntaxError⟩ ∧
    scrollToSection p (fragmentOf "#") = ⟨false, [], none⟩ := by
  refine ⟨rfl, rfl, rfl, rfl⟩

/-! ## The timer queue: one round per pending timer is enough -/

theorem earliest_eq_none {α : Type} (l : List (PendingTimer α)) :
    earliest l = none ↔ l = [] := by
  cases l with
  | nil => simp [earliest]
  | cons t ts =>
    simp only [earliest]
    cases earliest ts with
    | none => simp
    | some u => by_cases h : t.due ≤ u.due <;> simp [h]

theorem earliest_spec {α : Type} (l : List (PendingTimer α)) (t : PendingTimer α)
    (h : earliest l = some t) : t ∈ l ∧ ∀ u ∈ l, t.due ≤ u.due := by
  induction l generalizing t with
  | nil => simp [earliest] at h
  | cons a as ih =>
    simp only [earliest] at h
    cases he : earliest as with
    | none =>
      rw [he] at h
      simp only [Option.some.injEq] at h
      subst h
      have : as = [] := (earliest_eq_none as).mp he
      subst this
      simp
    | some u =>
      rw [he] at h
      obtain ⟨hu1, hu2⟩ := ih u he
      by_cases hd : a.due ≤ u.due
      · simp only [hd, if_true, Option.some.injEq] at h
        subst h
        refine ⟨List.mem_cons_self _ _, fun v hv => ?_⟩
        rcases List.mem_cons.mp hv with rfl | hv
        · exact le_refl _
        · exact le_trans hd (hu2 v hv)
      · simp only [hd, if_false, Option.some.injEq] at h
        subst h
        refine ⟨List.mem_cons_of_mem _ hu1, fun v hv => ?_⟩
        rcases List.mem_cons.mp hv with rfl | hv
        · omega
        · exact hu2 v hv

theorem fireDue_complete {α σ : Type} (func : Nat → α → σ → σ) (T : Nat) (fuel : Nat) :
    ∀ s : ThrottleSys α σ, s.pending.length ≤ fuel →
      ∀ t ∈ (fireDue func T fuel s).pending, T < t.due := by
  induction fuel with
  | zero =>
    intro s hs t ht
    have : s.pending = [] := List.length_eq_zero.mp (Nat.le_zero.mp hs)
    simp [fireDue, this] at ht
  | succ k ih =>
    intro s hs t ht
    cases he : earliest s.pending with
    | none =>
      have hnil : s.pending = [] := (earliest_eq_none _).mp he
      simp only [fireDue, he] at ht
      simp [hnil] at ht
    | some x =>
      obtain ⟨hx1, hx2⟩ := earliest_spec _ _ he
      by_cases hd : x.due ≤ T
      · simp only [fireDue, he, hd, if_true] at ht
        refine ih _ ?_ t ht
        have h1 : (s.pending.filter (fun u => u.id != x.id)).length < s.pending.length :=
          List.length_filter_lt_length_iff_exists.mpr ⟨x, hx1, by simp⟩
        have h2 := List.length_filter_le
          (fun u : PendingTimer α => some u.id != s.timeout)
          (s.pending.filter (fun u => u.id != x.id))
        simp only [later, clearTimeout]
        omega
      · simp only [fireDue, he, hd, if_false] at ht
        have := hx2 t ht
        omega

/-- After `advance func T`, no timer that was due by `T` is still pending: the
bound on the number of firings never cuts the run short. -/
theorem advance_complete {α σ : Type} (func : Nat → α → σ → σ) (T : Nat)
    (s : ThrottleSys α σ) : ∀ t ∈ (advance func T s).pending, T < t.due :=
  fun t ht => fireDue_complete func T s.pending.length s (le_refl _) t ht

end Script
